import Mathlib

/-!
Live & Local — Playlist Synchronization Engine, shallow embedding.

This file embeds the API route handlers of the playlist application
(`pages/api/create-playlist.js`, `pages/api/delete-playlist.js`,
`pages/api/update-playlist.js`) as pure Lean functions over explicit
environments that stand for the external collaborators (the Spotify HTTP
API, the token endpoint, and the Postgres tables).  Each handler returns
its HTTP-level response together with a trace of the external calls and
database writes it performed, so frame and ordering properties can be
stated about runs.
-/

namespace LiveAndLocal

/-- JavaScript falsiness for an optional string request field:
`!x` is true when the field is absent (`undefined`) or the empty string. -/
def falsyStr (s : Option String) : Bool :=
  match s with
  | none => true
  | some t => t = ""

/-- JavaScript falsiness of `xs?.length` for an optional array field:
true when the field is absent or the array is empty. -/
def falsyLen (v : Option (List Nat)) : Bool :=
  match v with
  | none => true
  | some l => l.isEmpty

/-- JavaScript `Array.prototype.slice(0, end)` where `end` may be
`undefined` (keep everything) or negative (count from the end of the
array); mirrors `topTracks.tracks.slice(0, songs_per_artist)`. -/
def jsSliceTo (l : List String) (e : Option Int) : List String :=
  match e with
  | none => l
  | some n => if n < 0 then l.take (Int.toNat (l.length + n)) else l.take n.toNat

/-- A row of the `artist_events` table.  The event date is stored as a
signed day offset from `CURRENT_DATE`, so the sync window
`[CURRENT_DATE, CURRENT_DATE + days_ahead]` becomes `0 ≤ off ≤ daysAhead`. -/
structure EventRow where
  venue_id : Nat
  spotify_artist_id : Option String
  spotify_artist_name : String
  off : Int
deriving DecidableEq, Repr

/-- A row written to the `playlists` table by the create handler's
`INSERT INTO playlists`.  `playlist_id` is an `Option` because the
JavaScript variable holding it may be `undefined` (see `ensurePlaylist`). -/
structure PlaylistRow where
  playlist_id : Option String
  spotify_user_id : String
  playlist_name : String
  playlist_description : Option String
  preferred_venues : List Nat
  songs_per_artist : Option Int
  days_ahead : Int
deriving DecidableEq, Repr

/-- The stored credential pair of a `users` row. -/
structure UserRow where
  access_token : String
  refresh_token : String
  display_name : String
deriving DecidableEq, Repr

/-- Outcome of one `fetch` against the Spotify playlist-creation
endpoint: the HTTP `ok` flag, the status code, and the `id` field of the
parsed body (meaningful only when `ok` is true). -/
structure FetchResp where
  ok : Bool
  status : Nat
  id : String
deriving DecidableEq, Repr

/-- Outcome of one artist top-tracks lookup.  `ok` carries the track
URIs in catalog order; `httpErr` is a non-ok HTTP response (skipped by
the handler); `netErr` is a thrown network/parse error (caught by the
per-artist `try`/`catch`). -/
inductive TopResult where
  | ok (tracks : List String)
  | httpErr
  | netErr
deriving DecidableEq, Repr

/-- Whether a top-tracks lookup failed (non-ok response or thrown error). -/
def TopResult.failed : TopResult → Bool
  | .ok _ => false
  | .httpErr => true
  | .netErr => true

/-- The request body of `POST /api/create-playlist`.  Absent fields are
`none`; `days_ahead = 21` is a destructuring default applied only when
the field is absent. -/
structure CreateReq where
  method : String
  spotify_user_id : Option String
  playlist_name : Option String
  playlist_description : Option String
  preferred_venues : Option (List Nat)
  songs_per_artist : Option Int
  days_ahead : Option Int
deriving DecidableEq, Repr

/-- The external world of one create-handler run: the `users` row, the
two possible playlist-creation responses, the token-refresh outcome
(`none` means the token endpoint failed, which throws), the
`artist_events` table and the per-artist top-tracks oracle. -/
structure CreateEnv where
  user : Option UserRow
  create1 : FetchResp
  refresh : Option String
  create2 : FetchResp
  events : List EventRow
  topTracks : String → TopResult

/-- Trace of external calls and database writes of one create run. -/
structure CreateTrace where
  createCalls : Nat
  refreshCalls : Nat
  credWrites : Nat
  inserted : List PlaylistRow
  topCalls : List String
  appendBatches : List (List String)
  syncTimeUpdates : Nat
deriving DecidableEq, Repr

/-- The empty trace. -/
def CreateTrace.nil : CreateTrace :=
  { createCalls := 0, refreshCalls := 0, credWrites := 0, inserted := [],
    topCalls := [], appendBatches := [], syncTimeUpdates := 0 }

/-- The JSON responses the create handler can produce.  `emptyEvents` is
the 200 response of the zero-event path, which carries a message and the
playlist id but no counters; `success` carries `tracks_added` and
`artists_found`. -/
inductive CreateResponse where
  | methodNotAllowed
  | missingFields
  | userNotFound
  | serverError
  | emptyEvents (playlist_id : Option String)
  | success (playlist_id : Option String) (tracks_added : Nat) (artists_found : Nat)
deriving DecidableEq, Repr

/-- HTTP status code of a create-handler response. -/
def CreateResponse.statusCode : CreateResponse → Nat
  | .methodNotAllowed => 405
  | .missingFields => 400
  | .userNotFound => 404
  | .serverError => 500
  | .emptyEvents _ => 200
  | .success _ _ _ => 200

/-- The `tracks_added` field of the response body, when present. -/
def CreateResponse.tracksAddedField : CreateResponse → Option Nat
  | .success _ t _ => some t
  | _ => none

/-- The `artists_found` field of the response body, when present. -/
def CreateResponse.artistsFoundField : CreateResponse → Option Nat
  | .success _ _ a => some a
  | _ => none

/-- The `playlist_id` field of the response body, when present
(`some none` means the key is present in the code path but its
JavaScript value is `undefined`). -/
def CreateResponse.playlistIdField : CreateResponse → Option (Option String)
  | .emptyEvents p => some p
  | .success p _ _ => some p
  | _ => none

/-- Outcome of step 2 of the create handler (the playlist-creation
call with its 401-refresh-retry logic). -/
inductive EnsureResult where
  | fatal (createCalls refreshCalls credWrites : Nat)
  | ok (pid : Option String) (token : String) (createCalls refreshCalls credWrites : Nat)
deriving DecidableEq, Repr

/-- Step 2 of `create-playlist.js` (lines 41–85): create the Spotify
playlist, refreshing the token and retrying exactly once on a 401.
In the source the retry branch binds the new id to a block-scoped
`const spotifyPlaylistId` (line 78) while the non-retry branch assigns a
function-scoped `var` (line 84); after a retry the function-scoped
variable read by the rest of the handler is therefore `undefined`,
modelled here as `pid = none`. -/
def ensurePlaylist (env : CreateEnv) (tok0 : String) : EnsureResult :=
  if env.create1.ok then
    .ok (some env.create1.id) tok0 1 0 0
  else if env.create1.status = 401 then
    match env.refresh with
    | none => .fatal 1 1 0
    | some newTok =>
      if env.create2.ok then
        .ok none newTok 2 1 1
      else
        .fatal 2 1 1
  else
    .fatal 1 0 0

/-- Keep the first occurrence of every `(artist id, artist name)` row,
modelling `SELECT DISTINCT spotify_artist_id, spotify_artist_name`. -/
def distinctRows (l : List (String × String)) : List (String × String) :=
  l.foldl (fun acc p => if p ∈ acc then acc else acc ++ [p]) []

/-- Whether an `artist_events` row qualifies for the sync window:
its venue is selected, its date lies in `[today, today + daysAhead]`,
and its artist id is resolved (`IS NOT NULL`). -/
def qualifies (venues : List Nat) (daysAhead : Int) (e : EventRow) : Bool :=
  decide (e.venue_id ∈ venues) && decide (0 ≤ e.off) && decide (e.off ≤ daysAhead)
    && e.spotify_artist_id.isSome

/-- The events query of `create-playlist.js` (lines 107–117): filter the
`artist_events` table by venue set, window and resolved artist id, and
return the distinct `(artist id, artist name)` rows. -/
def resolveArtists (events : List EventRow) (venues : List Nat) (daysAhead : Int) :
    List (String × String) :=
  distinctRows ((events.filter (qualifies venues daysAhead)).filterMap
    (fun e => e.spotify_artist_id.map (fun i => (i, e.spotify_artist_name))))

/-- The tracks contributed by one artist (lines 132–146): on a
successful lookup, the top tracks sliced to `songs_per_artist`; on an
HTTP error or a thrown error, nothing. -/
def artistTracks (r : TopResult) (spa : Option Int) : List String :=
  match r with
  | .ok tracks => jsSliceTo tracks spa
  | .httpErr => []
  | .netErr => []

/-- The per-artist loop of lines 127–151: push each artist's tracks onto
the accumulating `trackUris` array, in artist order. -/
def collectTracks (artists : List (String × String)) (top : String → TopResult)
    (spa : Option Int) : List String :=
  artists.foldl (fun acc a => acc ++ artistTracks (top a.1) spa) []

/-- Batch splitter of lines 154–167, fuel-indexed to mirror the loop
bound `i < trackUris.length`: emit `slice(i, i+100)` for
`i = 0, 100, 200, …`. -/
def batchesAux : Nat → List String → List (List String)
  | 0, _ => []
  | fuel + 1, l => if l.isEmpty then [] else l.take 100 :: batchesAux fuel (l.drop 100)

/-- The sequence of `appendTracks` batches issued for a track list. -/
def commitBatches (l : List String) : List (List String) :=
  batchesAux l.length l

/-- The handler of `POST /api/create-playlist` (`create-playlist.js`),
as a function of the request and the external environment, returning the
response and the trace of external calls and database writes. -/
def createHandler (req : CreateReq) (env : CreateEnv) : CreateResponse × CreateTrace :=
  if req.method ≠ "POST" then (.methodNotAllowed, .nil)
  else
    let daysAhead := req.days_ahead.getD 21
    if falsyStr req.spotify_user_id || falsyStr req.playlist_name
        || falsyLen req.preferred_venues then (.missingFields, .nil)
    else
      match env.user with
      | none => (.userNotFound, .nil)
      | some u =>
        match ensurePlaylist env u.access_token with
        | .fatal c r w =>
          (.serverError,
            { CreateTrace.nil with createCalls := c, refreshCalls := r, credWrites := w })
        | .ok pid _tok c r w =>
          let uid := (req.spotify_user_id.getD "")
          let venues := req.preferred_venues.getD []
          let row : PlaylistRow :=
            { playlist_id := pid, spotify_user_id := uid,
              playlist_name := req.playlist_name.getD "",
              playlist_description := req.playlist_description,
              preferred_venues := venues,
              songs_per_artist := req.songs_per_artist,
              days_ahead := daysAhead }
          let artists := resolveArtists env.events venues daysAhead
          if artists.isEmpty then
            (.emptyEvents pid,
              { createCalls := c, refreshCalls := r, credWrites := w,
                inserted := [row], topCalls := [], appendBatches := [],
                syncTimeUpdates := 0 })
          else
            let trackUris := collectTracks artists env.topTracks req.songs_per_artist
            (.success pid trackUris.length artists.length,
              { createCalls := c, refreshCalls := r, credWrites := w,
                inserted := [row], topCalls := artists.map Prod.fst,
                appendBatches := commitBatches trackUris,
                syncTimeUpdates := 1 })

/-! ## Delete handler (`delete-playlist.js`) -/

/-- A stored `playlists` row as seen by the delete and update handlers. -/
structure DbPlaylist where
  playlist_id : String
  spotify_user_id : String
  playlist_name : String
  playlist_description : Option String
  preferred_venues : List Nat
  songs_per_artist : Option Int
  days_ahead : Option Int
  is_active : Bool
deriving DecidableEq, Repr

/-- Request body of `DELETE /api/delete-playlist`. -/
structure DeleteReq where
  method : String
  playlist_id : Option String
  spotify_user_id : Option String
deriving DecidableEq, Repr

/-- External world of one delete run: the `users` row and the outcome
that the Spotify unfollow call will report. -/
structure DeleteEnv where
  user : Option UserRow
  unfollowOk : Bool
  table : List DbPlaylist
deriving Repr

/-- Responses of the delete handler. -/
inductive DeleteResponse where
  | methodNotAllowed
  | missingFields
  | userNotFound
  | spotifyDeleteFailed
  | notFoundInDb
  | success
deriving DecidableEq, Repr

/-- HTTP status code of a delete-handler response. -/
def DeleteResponse.statusCode : DeleteResponse → Nat
  | .methodNotAllowed => 405
  | .missingFields => 400
  | .userNotFound => 404
  | .spotifyDeleteFailed => 500
  | .notFoundInDb => 404
  | .success => 200

/-- Trace of one delete run: how many unfollow calls were issued. -/
structure DeleteTrace where
  unfollowCalls : Nat
deriving DecidableEq, Repr

/-- The soft-delete `UPDATE playlists SET is_active = false … WHERE
playlist_id = $1 AND spotify_user_id = $2` applied to the table. -/
def softDelete (table : List DbPlaylist) (pid uid : String) : List DbPlaylist :=
  table.map (fun r =>
    if r.playlist_id = pid && r.spotify_user_id = uid then
      { r with is_active := false }
    else r)

/-- The handler of `DELETE /api/delete-playlist` (`delete-playlist.js`):
call the Spotify unfollow endpoint, and only if it reports success mark
the local row inactive.  Returns the response, the table after the run,
and the call trace. -/
def deleteHandler (req : DeleteReq) (env : DeleteEnv) :
    DeleteResponse × List DbPlaylist × DeleteTrace :=
  if req.method ≠ "DELETE" then (.methodNotAllowed, env.table, ⟨0⟩)
  else if falsyStr req.playlist_id || falsyStr req.spotify_user_id then
    (.missingFields, env.table, ⟨0⟩)
  else
    match env.user with
    | none => (.userNotFound, env.table, ⟨0⟩)
    | some _ =>
      if !env.unfollowOk then
        (.spotifyDeleteFailed, env.table, ⟨1⟩)
      else
        let pid := req.playlist_id.getD ""
        let uid := req.spotify_user_id.getD ""
        let matched := env.table.filter
          (fun r => r.playlist_id = pid && r.spotify_user_id = uid)
        if matched.isEmpty then
          (.notFoundInDb, softDelete env.table pid uid, ⟨1⟩)
        else
          (.success, softDelete env.table pid uid, ⟨1⟩)

/-! ## Update handler (`update-playlist.js`) -/

/-- Request body of `PUT /api/update-playlist`; every metadata field is
optional and an absent field reaches the SQL as `NULL`. -/
structure UpdateReq where
  method : String
  playlist_id : Option String
  spotify_user_id : Option String
  playlist_name : Option String
  playlist_description : Option String
  preferred_venues : Option (List Nat)
  songs_per_artist : Option Int
  days_ahead : Option Int
deriving DecidableEq, Repr

/-- Responses of the update handler (the success payload row omitted). -/
inductive UpdateResponse where
  | methodNotAllowed
  | missingFields
  | notFound
  | success
deriving DecidableEq, Repr

/-- The `COALESCE($i, column)` row rewrite of `update-playlist.js`
lines 31–40, applied to one matching row. -/
def coalesceRow (req : UpdateReq) (r : DbPlaylist) : DbPlaylist :=
  { r with
    playlist_name := req.playlist_name.getD r.playlist_name,
    playlist_description :=
      match req.playlist_description with
      | some d => some d
      | none => r.playlist_description,
    preferred_venues := req.preferred_venues.getD r.preferred_venues,
    songs_per_artist :=
      match req.songs_per_artist with
      | some s => some s
      | none => r.songs_per_artist,
    days_ahead :=
      match req.days_ahead with
      | some d => some d
      | none => r.days_ahead }

/-- Trace of one update run: how many calls to the external music
service were issued (the source route contains no `fetch` at all, so
every path records zero). -/
structure UpdateTrace where
  externalCalls : Nat
deriving DecidableEq, Repr

/-- The handler of `PUT /api/update-playlist` (`update-playlist.js`):
a single local `UPDATE … WHERE playlist_id = $6 AND spotify_user_id = $7`
with per-field `COALESCE`; it performs no external call at all.  Returns
the response, the table after the run, and the call trace. -/
def updateHandler (req : UpdateReq) (table : List DbPlaylist) :
    UpdateResponse × List DbPlaylist × UpdateTrace :=
  if req.method ≠ "PUT" then (.methodNotAllowed, table, ⟨0⟩)
  else if falsyStr req.playlist_id || falsyStr req.spotify_user_id then
    (.missingFields, table, ⟨0⟩)
  else
    let pid := req.playlist_id.getD ""
    let uid := req.spotify_user_id.getD ""
    let matched := table.filter
      (fun r => r.playlist_id = pid && r.spotify_user_id = uid)
    let newTable := table.map (fun r =>
      if r.playlist_id = pid && r.spotify_user_id = uid then coalesceRow req r else r)
    if matched.isEmpty then (.notFound, newTable, ⟨0⟩)
    else (.success, newTable, ⟨0⟩)

/-- The `playlists` row that the create handler's `INSERT` writes for a
request, given the playlist id its JavaScript variable holds. -/
def insertedRow (req : CreateReq) (pid : Option String) : PlaylistRow :=
  { playlist_id := pid,
    spotify_user_id := req.spotify_user_id.getD "",
    playlist_name := req.playlist_name.getD "",
    playlist_description := req.playlist_description,
    preferred_venues := req.preferred_venues.getD [],
    songs_per_artist := req.songs_per_artist,
    days_ahead := req.days_ahead.getD 21 }

/-! ## Concrete fixtures used by witnesses and counterexamples -/

/-- A stored user with a credential pair. -/
def uA : UserRow := { access_token := "acc", refresh_token := "ref", display_name := "Al" }

/-- A successful playlist-creation response assigning id `P1`. -/
def okCreate : FetchResp := { ok := true, status := 201, id := "P1" }

/-- A well-formed create request. -/
def goodReq : CreateReq :=
  { method := "POST", spotify_user_id := some "u1", playlist_name := some "mylist",
    playlist_description := some "desc", preferred_venues := some [1, 2],
    songs_per_artist := some 2, days_ahead := some 30 }

/-- A small `artist_events` table: artist `A` plays two selected venues,
one row has an unresolved artist id, artist `C` plays an unselected
venue, and artist `D` plays outside every window used here. -/
def sampleEvents : List EventRow :=
  [ { venue_id := 1, spotify_artist_id := some "A", spotify_artist_name := "ArtistA", off := 3 },
    { venue_id := 2, spotify_artist_id := some "B", spotify_artist_name := "ArtistB", off := 5 },
    { venue_id := 2, spotify_artist_id := some "A", spotify_artist_name := "ArtistA", off := 7 },
    { venue_id := 1, spotify_artist_id := none, spotify_artist_name := "Unknown", off := 2 },
    { venue_id := 3, spotify_artist_id := some "C", spotify_artist_name := "ArtistC", off := 1 },
    { venue_id := 1, spotify_artist_id := some "D", spotify_artist_name := "ArtistD", off := 200 } ]

/-- Top-tracks oracle where both selected artists resolve. -/
def topOk : String → TopResult := fun i =>
  if i = "A" then .ok ["tA1", "tA2", "tA3"]
  else if i = "B" then .ok ["tB1"]
  else .httpErr

/-- Top-tracks oracle where artist `B`'s lookup throws a network error. -/
def topFailB : String → TopResult := fun i =>
  if i = "A" then .ok ["tA1", "tA2"] else .netErr

/-- A fully healthy create environment. -/
def envGood : CreateEnv :=
  { user := some uA, create1 := okCreate, refresh := none,
    create2 := { ok := false, status := 500, id := "" },
    events := sampleEvents, topTracks := topOk }

/-- Variant of `envGood` where artist `B`'s lookup fails. -/
def envFailB : CreateEnv := { envGood with topTracks := topFailB }

/-- Variant of `envGood` with an empty events table. -/
def envEmpty : CreateEnv := { envGood with events := [] }

/-- A create request whose parameters are far outside the documented
bounds `songs_per_artist ∈ [1,10]`, `days_ahead ∈ [1,90]`. -/
def badRangeReq : CreateReq :=
  { goodReq with songs_per_artist := some 99, days_ahead := some 5000 }

/-- Environment where the first creation call fails with 401, the token
refresh succeeds, and the retried creation call succeeds with id `P123`. -/
def env401 : CreateEnv :=
  { envGood with
    create1 := { ok := false, status := 401, id := "" },
    refresh := some "tok2",
    create2 := { ok := true, status := 201, id := "P123" } }

/-- Variant of `env401` where the retried creation call fails with 401 again. -/
def env401b : CreateEnv :=
  { env401 with create2 := { ok := false, status := 401, id := "" } }

/-- Variant of `goodReq` without a `days_ahead` field. -/
def reqNoDays : CreateReq := { goodReq with days_ahead := none }

/-- Variant of `goodReq` without a playlist name. -/
def noNameReq : CreateReq := { goodReq with playlist_name := none }

/-- A well-formed delete request. -/
def dReq : DeleteReq :=
  { method := "DELETE", playlist_id := some "P1", spotify_user_id := some "u1" }

/-- A stored active playlist row. -/
def dRow : DbPlaylist :=
  { playlist_id := "P1", spotify_user_id := "u1", playlist_name := "mylist",
    playlist_description := some "desc", preferred_venues := [1],
    songs_per_artist := some 3, days_ahead := some 21, is_active := true }

/-- Delete environment where the Spotify unfollow call reports failure. -/
def dEnvFail : DeleteEnv := { user := some uA, unfollowOk := false, table := [dRow] }

/-- An update request supplying a new name and songs-per-artist while
omitting description, venue set and days-ahead. -/
def uReq : UpdateReq :=
  { method := "PUT", playlist_id := some "P1", spotify_user_id := some "u1",
    playlist_name := some "newname", playlist_description := none,
    preferred_venues := none, songs_per_artist := some 5, days_ahead := none }

/-- A two-row playlists table; only the first row matches `uReq`. -/
def uTable : List DbPlaylist :=
  [dRow, { dRow with playlist_id := "P2", playlist_name := "other" }]

/-! ## Helper lemmas -/

/-- The accumulator-passing form of `distinctRows` preserves `Nodup`. -/
theorem distinctRows_foldl_nodup (l : List (String × String)) :
    ∀ acc : List (String × String), acc.Nodup →
      (List.foldl (fun acc p => if p ∈ acc then acc else acc ++ [p]) acc l).Nodup := by
  induction l with
  | nil => intro acc h; simpa using h
  | cons p t ih =>
    intro acc hacc
    simp only [List.foldl_cons]
    apply ih
    by_cases hp : p ∈ acc
    · simpa [hp] using hacc
    · simp [hp, List.nodup_append, hacc]

/-- The function `distinctRows` returns a duplicate-free list of rows. -/
theorem distinctRows_nodup (l : List (String × String)) : (distinctRows l).Nodup :=
  distinctRows_foldl_nodup l [] List.nodup_nil

/-- Members produced by the `distinctRows` fold come from the
accumulator or from the input list. -/
theorem distinctRows_foldl_mem (l : List (String × String)) :
    ∀ acc : List (String × String), ∀ q,
      q ∈ List.foldl (fun acc p => if p ∈ acc then acc else acc ++ [p]) acc l →
      q ∈ acc ∨ q ∈ l := by
  induction l with
  | nil => intro acc q h; exact Or.inl (by simpa using h)
  | cons p t ih =>
    intro acc q h
    simp only [List.foldl_cons] at h
    rcases ih _ q h with h' | h'
    · by_cases hp : p ∈ acc
      · simp [hp] at h'
        exact Or.inl h'
      · simp [hp] at h'
        rcases h' with h' | h'
        · exact Or.inl h'
        · exact Or.inr (by simp [h'])
    · exact Or.inr (List.mem_cons_of_mem _ h')

/-- Every row of `distinctRows l` is a row of `l`. -/
theorem mem_distinctRows {p : String × String} {l : List (String × String)}
    (h : p ∈ distinctRows l) : p ∈ l := by
  rcases distinctRows_foldl_mem l [] p h with h' | h'
  · simp at h'
  · exact h'

/-- Every `(id, name)` pair returned by `resolveArtists` comes from a
stored event whose artist id is `some id` and whose name is `name`. -/
theorem mem_resolveArtists {p : String × String} {events : List EventRow}
    {venues : List Nat} {d : Int} (h : p ∈ resolveArtists events venues d) :
    ∃ e ∈ events, e.spotify_artist_id = some p.1 ∧ e.spotify_artist_name = p.2 := by
  have h' := mem_distinctRows h
  rcases List.mem_filterMap.1 h' with ⟨e, he, hmap⟩
  rcases List.mem_filter.1 he with ⟨heMem, _⟩
  refine ⟨e, heMem, ?_, ?_⟩
  · cases hid : e.spotify_artist_id with
    | none => simp [hid] at hmap
    | some i =>
      simp [hid] at hmap
      simp [← hmap]
  · cases hid : e.spotify_artist_id with
    | none => simp [hid] at hmap
    | some i =>
      simp [hid] at hmap
      simp [← hmap]

/-- The accumulating per-artist loop equals the flattened per-artist map. -/
theorem collectTracks_foldl_eq (top : String → TopResult) (spa : Option Int) :
    ∀ (artists : List (String × String)) (acc : List String),
      List.foldl (fun acc a => acc ++ artistTracks (top a.1) spa) acc artists =
        acc ++ (artists.map (fun a => artistTracks (top a.1) spa)).flatten := by
  intro artists
  induction artists with
  | nil => intro acc; simp
  | cons a t ih => intro acc; simp [ih]

/-- The function `collectTracks` groups tracks by artist, artists in resolver order. -/
theorem collectTracks_eq (artists : List (String × String)) (top : String → TopResult)
    (spa : Option Int) :
    collectTracks artists top spa =
      (artists.map (fun a => artistTracks (top a.1) spa)).flatten := by
  simpa using collectTracks_foldl_eq top spa artists []

/-- Batching the empty list issues no calls, whatever the fuel. -/
theorem batchesAux_nilList (fuel : Nat) : batchesAux fuel [] = [] := by
  cases fuel <;> simp [batchesAux]

/-- The fuel of `batchesAux` is irrelevant once it covers the list length. -/
theorem batchesAux_congr :
    ∀ (f1 : Nat) (l : List String) (f2 : Nat), l.length ≤ f1 → l.length ≤ f2 →
      batchesAux f1 l = batchesAux f2 l := by
  intro f1
  induction f1 with
  | zero =>
    intro l f2 h1 _
    have : l = [] := List.eq_nil_of_length_eq_zero (Nat.le_zero.1 h1)
    subst this
    simp [batchesAux_nilList]
  | succ f ih =>
    intro l f2 h1 h2
    cases hl : l with
    | nil => simp [batchesAux_nilList]
    | cons x xs =>
      subst hl
      cases f2 with
      | zero => simp at h2
      | succ f2' =>
        have hstep1 : batchesAux (f + 1) (x :: xs) =
            (x :: xs).take 100 :: batchesAux f ((x :: xs).drop 100) := rfl
        have hstep2 : batchesAux (f2' + 1) (x :: xs) =
            (x :: xs).take 100 :: batchesAux f2' ((x :: xs).drop 100) := rfl
        have hlen : ((x :: xs).drop 100).length ≤ f := by
          simp only [List.length_drop, List.length_cons]
          simp only [List.length_cons] at h1
          omega
        have hlen2 : ((x :: xs).drop 100).length ≤ f2' := by
          simp only [List.length_drop, List.length_cons]
          simp only [List.length_cons] at h2
          omega
        rw [hstep1, hstep2, ih _ f2' hlen hlen2]

/-- Unfolding step of `commitBatches` on a nonempty track list. -/
theorem commitBatches_step (l : List String) (h : l ≠ []) :
    commitBatches l = l.take 100 :: commitBatches (l.drop 100) := by
  unfold commitBatches
  cases hl : l with
  | nil => exact absurd hl h
  | cons x xs =>
    subst hl
    have hstep : batchesAux (x :: xs).length (x :: xs) =
        (x :: xs).take 100 :: batchesAux xs.length ((x :: xs).drop 100) := rfl
    rw [hstep]
    congr 1
    apply batchesAux_congr
    · simp only [List.length_drop, List.length_cons]
      omega
    · exact Nat.le_refl _

/-- Concatenating the issued batches recovers the track list exactly. -/
theorem commitBatches_flatten_aux :
    ∀ (n : Nat) (l : List String), l.length ≤ n → (commitBatches l).flatten = l := by
  intro n
  induction n with
  | zero =>
    intro l h
    have : l = [] := List.eq_nil_of_length_eq_zero (Nat.le_zero.1 h)
    subst this
    rfl
  | succ n ih =>
    intro l h
    cases hl : l with
    | nil => rfl
    | cons x xs =>
      subst hl
      rw [commitBatches_step _ (by simp), List.flatten_cons,
        ih _ (by simp only [List.length_drop, List.length_cons] at h ⊢; omega),
        List.take_append_drop]

/-- Concatenating the issued batches recovers the track list exactly. -/
theorem commitBatches_flatten (l : List String) : (commitBatches l).flatten = l :=
  commitBatches_flatten_aux l.length l (Nat.le_refl _)

/-- Every issued batch holds at most 100 track identifiers. -/
theorem commitBatches_le_aux :
    ∀ (n : Nat) (l : List String), l.length ≤ n →
      ∀ b ∈ commitBatches l, b.length ≤ 100 := by
  intro n
  induction n with
  | zero =>
    intro l h b hb
    have : l = [] := List.eq_nil_of_length_eq_zero (Nat.le_zero.1 h)
    subst this
    simp [commitBatches, batchesAux] at hb
  | succ n ih =>
    intro l h b hb
    cases hl : l with
    | nil =>
      subst hl
      simp [commitBatches, batchesAux] at hb
    | cons x xs =>
      subst hl
      rw [commitBatches_step _ (by simp)] at hb
      rcases List.mem_cons.1 hb with hb | hb
      · subst hb
        simp [List.length_take]
      · exact ih _ (by simp only [List.length_drop, List.length_cons] at h ⊢; omega) b hb

/-- Every issued batch holds at most 100 track identifiers. -/
theorem commitBatches_le (l : List String) : ∀ b ∈ commitBatches l, b.length ≤ 100 :=
  commitBatches_le_aux l.length l (Nat.le_refl _)

/-- A failed lookup contributes no tracks. -/
theorem artistTracks_failed {r : TopResult} (h : r.failed = true) (spa : Option Int) :
    artistTracks r spa = [] := by
  cases r with
  | ok t => simp [TopResult.failed] at h
  | httpErr => rfl
  | netErr => rfl

/-- With a non-negative integer bound, the JavaScript slice is a plain
`take`. -/
theorem jsSliceTo_natCast (l : List String) (k : Nat) :
    jsSliceTo l (some (k : Int)) = l.take k := by
  simp [jsSliceTo, Int.toNat_natCast]

/-- The row inserted by `INSERT INTO playlists` always carries the
request's fields unchanged, with the defaulted window. -/
theorem createHandler_inserted (req : CreateReq) (env : CreateEnv) :
    ∀ row ∈ (createHandler req env).2.inserted,
      row.spotify_user_id = req.spotify_user_id.getD "" ∧
      row.playlist_name = req.playlist_name.getD "" ∧
      row.playlist_description = req.playlist_description ∧
      row.preferred_venues = req.preferred_venues.getD [] ∧
      row.songs_per_artist = req.songs_per_artist ∧
      row.days_ahead = req.days_ahead.getD 21 := by
  intro row hrow
  unfold createHandler at hrow
  split at hrow
  · simp [CreateTrace.nil] at hrow
  · split at hrow
    · simp [CreateTrace.nil] at hrow
    · split at hrow
      · simp [CreateTrace.nil] at hrow
      · split at hrow
        · simp [CreateTrace.nil] at hrow
        · dsimp only at hrow
          split at hrow
          · simp only [List.mem_singleton] at hrow
            subst hrow
            exact ⟨rfl, rfl, rfl, rfl, rfl, rfl⟩
          · simp only [List.mem_singleton] at hrow
            subst hrow
            exact ⟨rfl, rfl, rfl, rfl, rfl, rfl⟩

/-- Full evaluation of the create handler on the happy path when the
venue selection has at least one qualifying event. -/
theorem createHandler_ok_nonempty (req : CreateReq) (env : CreateEnv)
    (hm : req.method = "POST")
    (h1 : falsyStr req.spotify_user_id = false)
    (h2 : falsyStr req.playlist_name = false)
    (h3 : falsyLen req.preferred_venues = false)
    (u : UserRow) (hu : env.user = some u)
    (hok : env.create1.ok = true)
    (hne : resolveArtists env.events (req.preferred_venues.getD [])
        (req.days_ahead.getD 21) ≠ []) :
    createHandler req env =
      (.success (some env.create1.id)
        (collectTracks
          (resolveArtists env.events (req.preferred_venues.getD [])
            (req.days_ahead.getD 21)) env.topTracks req.songs_per_artist).length
        (resolveArtists env.events (req.preferred_venues.getD [])
          (req.days_ahead.getD 21)).length,
      { createCalls := 1, refreshCalls := 0, credWrites := 0,
        inserted := [insertedRow req (some env.create1.id)],
        topCalls := (resolveArtists env.events (req.preferred_venues.getD [])
          (req.days_ahead.getD 21)).map Prod.fst,
        appendBatches := commitBatches
          (collectTracks
            (resolveArtists env.events (req.preferred_venues.getD [])
              (req.days_ahead.getD 21)) env.topTracks req.songs_per_artist),
        syncTimeUpdates := 1 }) := by
  have hne' : (resolveArtists env.events (req.preferred_venues.getD [])
      (req.days_ahead.getD 21)).isEmpty = false := by
    cases h : resolveArtists env.events (req.preferred_venues.getD [])
        (req.days_ahead.getD 21) with
    | nil => exact absurd h hne
    | cons a t => rfl
  simp [createHandler, ensurePlaylist, insertedRow, hm, h1, h2, h3, hu, hok, hne']

/-- Full evaluation of the create handler on the happy path when the
venue selection has no qualifying event. -/
theorem createHandler_ok_empty (req : CreateReq) (env : CreateEnv)
    (hm : req.method = "POST")
    (h1 : falsyStr req.spotify_user_id = false)
    (h2 : falsyStr req.playlist_name = false)
    (h3 : falsyLen req.preferred_venues = false)
    (u : UserRow) (hu : env.user = some u)
    (hok : env.create1.ok = true)
    (hempty : resolveArtists env.events (req.preferred_venues.getD [])
        (req.days_ahead.getD 21) = []) :
    createHandler req env =
      (.emptyEvents (some env.create1.id),
      { createCalls := 1, refreshCalls := 0, credWrites := 0,
        inserted := [insertedRow req (some env.create1.id)],
        topCalls := [], appendBatches := [], syncTimeUpdates := 0 }) := by
  simp [createHandler, ensurePlaylist, insertedRow, hm, h1, h2, h3, hu, hok, hempty]

/-! ## Claim theorems -/

/-- C1: on a create run whose first external creation call fails with
401 and whose refresh succeeds, the creation call is retried exactly
once (two creation calls, one refresh) and the run completes with a 200
response; but the playlist id assigned by the retried call (`P123`) is
neither returned nor persisted — the response's `playlist_id` and the
inserted row's id are both the JavaScript `undefined` (`none`), because
the retry branch binds the id to a dead block-scoped `const`.  A second
401 after the refresh is fatal: the run ends in a 500 with no second
refresh attempt. -/
theorem c1_refresh_retry_observed :
    (createHandler goodReq env401).2.createCalls = 2 ∧
    (createHandler goodReq env401).2.refreshCalls = 1 ∧
    (createHandler goodReq env401).1.statusCode = 200 ∧
    env401.create2.id = "P123" ∧
    (createHandler goodReq env401).1.playlistIdField = some none ∧
    (∀ row ∈ (createHandler goodReq env401).2.inserted, row.playlist_id = none) ∧
    (createHandler goodReq env401b).1 = .serverError ∧
    (createHandler goodReq env401b).2.createCalls = 2 ∧
    (createHandler goodReq env401b).2.refreshCalls = 1 := by
  decide

/-- C2, counterexample: a create request with `songs_per_artist = 99`
and `days_ahead = 5000`, both far outside the documented bounds, is not
rejected as a validation error — the handler proceeds and issues the
external playlist-creation call. -/
theorem c2_counterexample :
    (createHandler badRangeReq envGood).1 ≠ .missingFields ∧
    (createHandler badRangeReq envGood).1.statusCode ≠ 400 ∧
    (createHandler badRangeReq envGood).2.createCalls = 1 ∧
    badRangeReq.songs_per_artist = some 99 ∧
    badRangeReq.days_ahead = some 5000 := by
  decide

/-- C2, amended: a request with a missing (or empty) user id, name or
venue selection is rejected with a 400 before any external call or
database write; out-of-range `songs_per_artist`/`days_ahead` values are
neither rejected nor clamped — they are stored on the new row exactly as
supplied. -/
theorem c2_validation_amended (req : CreateReq) (env : CreateEnv) :
    (req.method = "POST" →
      (falsyStr req.spotify_user_id || falsyStr req.playlist_name
        || falsyLen req.preferred_venues) = true →
      createHandler req env = (.missingFields, CreateTrace.nil)) ∧
    (∀ row ∈ (createHandler req env).2.inserted,
      row.songs_per_artist = req.songs_per_artist ∧
      row.days_ahead = req.days_ahead.getD 21) := by
  constructor
  · intro hm hv
    simp [createHandler, hm, hv]
  · intro row hrow
    have h := createHandler_inserted req env row hrow
    exact ⟨h.2.2.2.2.1, h.2.2.2.2.2⟩

/-- Witness for C2 at concrete inputs: a nameless request is rejected
with an empty trace, and `badRangeReq`'s out-of-range values reach the
inserted row unchanged. -/
theorem c2_validation_amended_witness :
    createHandler noNameReq envGood = (.missingFields, CreateTrace.nil) ∧
    ∀ row ∈ (createHandler badRangeReq envGood).2.inserted,
      row.songs_per_artist = badRangeReq.songs_per_artist ∧
      row.days_ahead = badRangeReq.days_ahead.getD 21 :=
  ⟨(c2_validation_amended noNameReq envGood).1 (by decide) (by decide),
   (c2_validation_amended badRangeReq envGood).2⟩

/-- C3, counterexample: when the events table stores the same artist id
under two different display names at a selected venue, the resolver
(`SELECT DISTINCT` over the id–name pair) returns that artist id twice. -/
theorem c3_counterexample :
    ¬ ((resolveArtists
      [ { venue_id := 1, spotify_artist_id := some "A", spotify_artist_name := "X", off := 0 },
        { venue_id := 1, spotify_artist_id := some "A", spotify_artist_name := "Y", off := 0 } ]
      [1] 21).map Prod.fst).Nodup := by
  decide

/-- C3, amended: for every venue set and window, `resolveArtists`
returns each `(artist id, artist name)` row at most once; each artist id
appears at most once provided the events table stores a single display
name per artist id (in particular when an artist appears at several
selected venues under one name). -/
theorem c3_resolveArtists_amended (events : List EventRow) (venues : List Nat) (d : Int) :
    (resolveArtists events venues d).Nodup ∧
    ((∀ e1 ∈ events, ∀ e2 ∈ events,
        e1.spotify_artist_id.isSome = true →
        e1.spotify_artist_id = e2.spotify_artist_id →
        e1.spotify_artist_name = e2.spotify_artist_name) →
      ((resolveArtists events venues d).map Prod.fst).Nodup) := by
  constructor
  · exact distinctRows_nodup _
  · intro hfun
    refine List.Nodup.map_on ?_ (distinctRows_nodup _)
    intro x hx y hy hxy
    obtain ⟨e1, he1, hid1, hn1⟩ := mem_resolveArtists hx
    obtain ⟨e2, he2, hid2, hn2⟩ := mem_resolveArtists hy
    have hids : e1.spotify_artist_id = e2.spotify_artist_id := by
      rw [hid1, hid2, hxy]
    have hsome : e1.spotify_artist_id.isSome = true := by
      rw [hid1]; rfl
    have hnames := hfun e1 he1 e2 he2 hsome hids
    refine Prod.ext_iff.2 ⟨hxy, ?_⟩
    rw [← hn1, ← hn2, hnames]

/-- Witness for C3 at a concrete table where artist `A` plays two
selected venues under one name: the returned artist ids are distinct. -/
theorem c3_resolveArtists_amended_witness :
    ((resolveArtists sampleEvents [1, 2] 30).map Prod.fst).Nodup :=
  (c3_resolveArtists_amended sampleEvents [1, 2] 30).2 (by decide)

/-- C4, counterexample: with zero qualifying events the run does succeed
(HTTP 200), but the response body omits the counters instead of
reporting `tracks_added = 0` and `artists_found = 0`. -/
theorem c4_counterexample :
    (createHandler goodReq envEmpty).1.statusCode = 200 ∧
    (createHandler goodReq envEmpty).1.tracksAddedField ≠ some 0 ∧
    (createHandler goodReq envEmpty).1.artistsFoundField ≠ some 0 := by
  decide

/-- C4, amended: a create run whose venue selection has zero qualifying
events still succeeds (HTTP 200) after creating the external playlist
shell and inserting the local row, issues no batch commits, and returns
the empty-events message with the playlist id — but without
`tracks_added`/`artists_found` fields (they are absent, not zero). -/
theorem c4_empty_events_amended (req : CreateReq) (env : CreateEnv)
    (hm : req.method = "POST")
    (h1 : falsyStr req.spotify_user_id = false)
    (h2 : falsyStr req.playlist_name = false)
    (h3 : falsyLen req.preferred_venues = false)
    (u : UserRow) (hu : env.user = some u)
    (hok : env.create1.ok = true)
    (hempty : resolveArtists env.events (req.preferred_venues.getD [])
        (req.days_ahead.getD 21) = []) :
    (createHandler req env).1.statusCode = 200 ∧
    (createHandler req env).1 = .emptyEvents (some env.create1.id) ∧
    (createHandler req env).2.inserted = [insertedRow req (some env.create1.id)] ∧
    (createHandler req env).2.createCalls = 1 ∧
    (createHandler req env).2.appendBatches = [] ∧
    (createHandler req env).1.tracksAddedField = none ∧
    (createHandler req env).1.artistsFoundField = none := by
  rw [createHandler_ok_empty req env hm h1 h2 h3 u hu hok hempty]
  exact ⟨rfl, rfl, rfl, rfl, rfl, rfl, rfl⟩

/-- Witness for C4 at a concrete empty-events environment. -/
theorem c4_empty_events_amended_witness :
    (createHandler goodReq envEmpty).1.statusCode = 200 ∧
    (createHandler goodReq envEmpty).1 = .emptyEvents (some envEmpty.create1.id) ∧
    (createHandler goodReq envEmpty).2.inserted =
      [insertedRow goodReq (some envEmpty.create1.id)] ∧
    (createHandler goodReq envEmpty).2.createCalls = 1 ∧
    (createHandler goodReq envEmpty).2.appendBatches = [] ∧
    (createHandler goodReq envEmpty).1.tracksAddedField = none ∧
    (createHandler goodReq envEmpty).1.artistsFoundField = none :=
  c4_empty_events_amended goodReq envEmpty (by decide) (by decide) (by decide)
    (by decide) uA (by decide) (by decide) (by decide)

/-- With `songs_per_artist = k ≥ 0`, an artist contributes the first `k`
top tracks in catalog order on success and nothing on failure. -/
theorem artistTracks_natCast (r : TopResult) (k : Nat) :
    artistTracks r (some (k : Int)) =
      (match r with
        | .ok ts => ts.take k
        | .httpErr => []
        | .netErr => []) := by
  cases r with
  | ok ts => simp [artistTracks, jsSliceTo_natCast]
  | httpErr => rfl
  | netErr => rfl

/-- C5: on the happy path, the failure of one artist's top-tracks lookup
never aborts the run: the handler still answers 200 (no exception to the
caller), every resolved artist is looked up (processing proceeds past
the failing artist), `artists_found` still counts all resolved artists,
and `tracks_added` is the length of the per-artist concatenation in
which the failing artist contributes the empty list — the failure shows
up only as a lower count. -/
theorem c5_per_artist_failure_nonfatal (req : CreateReq) (env : CreateEnv)
    (hm : req.method = "POST")
    (h1 : falsyStr req.spotify_user_id = false)
    (h2 : falsyStr req.playlist_name = false)
    (h3 : falsyLen req.preferred_venues = false)
    (u : UserRow) (hu : env.user = some u)
    (hok : env.create1.ok = true)
    (a : String × String)
    (ha : a ∈ resolveArtists env.events (req.preferred_venues.getD [])
        (req.days_ahead.getD 21))
    (hfail : (env.topTracks a.1).failed = true) :
    (createHandler req env).1.statusCode = 200 ∧
    (createHandler req env).2.topCalls =
      (resolveArtists env.events (req.preferred_venues.getD [])
        (req.days_ahead.getD 21)).map Prod.fst ∧
    (createHandler req env).1.artistsFoundField =
      some (resolveArtists env.events (req.preferred_venues.getD [])
        (req.days_ahead.getD 21)).length ∧
    (createHandler req env).1.tracksAddedField =
      some ((resolveArtists env.events (req.preferred_venues.getD [])
        (req.days_ahead.getD 21)).map
          (fun b => artistTracks (env.topTracks b.1) req.songs_per_artist)).flatten.length ∧
    artistTracks (env.topTracks a.1) req.songs_per_artist = [] := by
  have hne : resolveArtists env.events (req.preferred_venues.getD [])
      (req.days_ahead.getD 21) ≠ [] := List.ne_nil_of_mem ha
  rw [createHandler_ok_nonempty req env hm h1 h2 h3 u hu hok hne]
  refine ⟨rfl, rfl, rfl, ?_, artistTracks_failed hfail _⟩
  simp [CreateResponse.tracksAddedField, collectTracks_eq]

/-- Witness for C5: artist `B`'s lookup throws, yet the run answers 200,
both artists are looked up, and only the counts shrink. -/
theorem c5_per_artist_failure_nonfatal_witness :
    (createHandler goodReq envFailB).1.statusCode = 200 ∧
    (createHandler goodReq envFailB).2.topCalls =
      (resolveArtists envFailB.events (goodReq.preferred_venues.getD [])
        (goodReq.days_ahead.getD 21)).map Prod.fst ∧
    (createHandler goodReq envFailB).1.artistsFoundField =
      some (resolveArtists envFailB.events (goodReq.preferred_venues.getD [])
        (goodReq.days_ahead.getD 21)).length ∧
    (createHandler goodReq envFailB).1.tracksAddedField =
      some ((resolveArtists envFailB.events (goodReq.preferred_venues.getD [])
        (goodReq.days_ahead.getD 21)).map
          (fun b => artistTracks (envFailB.topTracks b.1)
            goodReq.songs_per_artist)).flatten.length ∧
    artistTracks (envFailB.topTracks ("B", "ArtistB").1) goodReq.songs_per_artist = [] :=
  c5_per_artist_failure_nonfatal goodReq envFailB (by decide) (by decide) (by decide)
    (by decide) uA (by decide) (by decide) ("B", "ArtistB") (by decide) (by decide)

/-- C6: with `songs_per_artist = k ≥ 0`, the committed track list (the
concatenation of all issued batches) equals the concatenation, over
resolved artists in resolver order, of each successfully looked-up
artist's top tracks truncated to the first `k` entries in catalog order;
nothing is deduplicated (the committed list is exactly that
concatenation, shared identifiers included), and the reported
`tracks_added` equals its length. -/
theorem c6_track_assembly (req : CreateReq) (env : CreateEnv)
    (hm : req.method = "POST")
    (h1 : falsyStr req.spotify_user_id = false)
    (h2 : falsyStr req.playlist_name = false)
    (h3 : falsyLen req.preferred_venues = false)
    (u : UserRow) (hu : env.user = some u)
    (hok : env.create1.ok = true)
    (hne : resolveArtists env.events (req.preferred_venues.getD [])
        (req.days_ahead.getD 21) ≠ [])
    (k : Nat) (hspa : req.songs_per_artist = some (k : Int)) :
    ((createHandler req env).2.appendBatches).flatten =
      ((resolveArtists env.events (req.preferred_venues.getD [])
          (req.days_ahead.getD 21)).map
        (fun a => match env.topTracks a.1 with
          | .ok ts => ts.take k
          | .httpErr => []
          | .netErr => [])).flatten ∧
    (createHandler req env).1.tracksAddedField =
      some (((createHandler req env).2.appendBatches).flatten).length := by
  rw [createHandler_ok_nonempty req env hm h1 h2 h3 u hu hok hne]
  constructor
  · show (commitBatches _).flatten = _
    rw [commitBatches_flatten, collectTracks_eq]
    simp only [hspa, artistTracks_natCast]
  · show some _ = some _
    rw [commitBatches_flatten]

/-- Witness for C6 at `goodReq`/`envGood` with `k = 2`. -/
theorem c6_track_assembly_witness :
    ((createHandler goodReq envGood).2.appendBatches).flatten =
      ((resolveArtists envGood.events (goodReq.preferred_venues.getD [])
          (goodReq.days_ahead.getD 21)).map
        (fun a => match envGood.topTracks a.1 with
          | .ok ts => ts.take 2
          | .httpErr => []
          | .netErr => [])).flatten ∧
    (createHandler goodReq envGood).1.tracksAddedField =
      some (((createHandler goodReq envGood).2.appendBatches).flatten).length :=
  c6_track_assembly goodReq envGood (by decide) (by decide) (by decide) (by decide)
    uA (by decide) (by decide) (by decide) 2 (by decide)

/-- C7: batches are issued in list order with the concatenation of the
issued batches equal to the track list, every batch holds at most 100
identifiers, and a 250-identifier list is committed as exactly three
batches of sizes 100, 100 and 50, in that order. -/
theorem c7_batch_commit (l : List String) :
    (∀ b ∈ commitBatches l, b.length ≤ 100) ∧
    (commitBatches l).flatten = l ∧
    (l.length = 250 → (commitBatches l).map List.length = [100, 100, 50]) := by
  refine ⟨commitBatches_le l, commitBatches_flatten l, ?_⟩
  intro h250
  have h0 : l ≠ [] := by
    intro h; rw [h] at h250; simp at h250
  rw [commitBatches_step l h0]
  have hd1 : (l.drop 100).length = 150 := by
    simp [List.length_drop, h250]
  have hne1 : l.drop 100 ≠ [] := by
    intro h; rw [h] at hd1; simp at hd1
  rw [commitBatches_step _ hne1]
  have hd2 : ((l.drop 100).drop 100).length = 50 := by
    simp [List.length_drop, h250]
  have hne2 : (l.drop 100).drop 100 ≠ [] := by
    intro h; rw [h] at hd2; simp at hd2
  rw [commitBatches_step _ hne2]
  have hd3 : ((l.drop 100).drop 100).drop 100 = [] := by
    apply List.eq_nil_of_length_eq_zero
    simp [List.length_drop, h250]
  rw [hd3]
  simp [commitBatches, batchesAux, List.length_take, h250, hd1, hd2]

/-- Witness for C7 on a concrete 250-identifier list. -/
theorem c7_batch_commit_witness :
    (List.replicate 250 "t").length = 250 ∧
    (commitBatches (List.replicate 250 "t")).map List.length = [100, 100, 50] :=
  ⟨by rw [List.length_replicate], (c7_batch_commit (List.replicate 250 "t")).2.2
    (by rw [List.length_replicate])⟩

/-- C8: when the external unfollow call reports failure, the delete
handler returns the table completely unchanged (every row, including its
`is_active` flag), reports a 500 failure, and has issued exactly one
unfollow call — no retry; the row is therefore marked inactive only
after a successful unfollow. -/
theorem c8_delete_guard (req : DeleteReq) (env : DeleteEnv)
    (hm : req.method = "DELETE")
    (h1 : falsyStr req.playlist_id = false)
    (h2 : falsyStr req.spotify_user_id = false)
    (u : UserRow) (hu : env.user = some u)
    (hfail : env.unfollowOk = false) :
    deleteHandler req env = (.spotifyDeleteFailed, env.table, ⟨1⟩) := by
  simp [deleteHandler, hm, h1, h2, hu, hfail]

/-- Witness for C8 at a concrete failing unfollow. -/
theorem c8_delete_guard_witness :
    deleteHandler dReq dEnvFail = (.spotifyDeleteFailed, dEnvFail.table, ⟨1⟩) :=
  c8_delete_guard dReq dEnvFail (by decide) (by decide) (by decide) uA rfl rfl

/-- On a well-formed update request, the resulting table is the
row-wise `COALESCE` rewrite of the matching rows, and no external call
is made. -/
theorem updateHandler_table_eq (req : UpdateReq) (table : List DbPlaylist)
    (hm : req.method = "PUT")
    (h1 : falsyStr req.playlist_id = false)
    (h2 : falsyStr req.spotify_user_id = false) :
    (updateHandler req table).2.1 = table.map (fun r =>
      if r.playlist_id = req.playlist_id.getD "" &&
          r.spotify_user_id = req.spotify_user_id.getD "" then coalesceRow req r
      else r) ∧
    (updateHandler req table).2.2 = ⟨0⟩ := by
  unfold updateHandler
  rw [if_neg (by simp [hm]), if_neg (by simp [h1, h2])]
  dsimp only
  split
  · exact ⟨rfl, rfl⟩
  · exact ⟨rfl, rfl⟩

/-- C9: an update run touches no external resource (zero external calls,
so no playlist is created and no track list pushed), keeps the table's
length, and rewrites each row so that the stored external playlist id
and active flag are unchanged, non-matching rows are untouched, and on
the matching row each of the five metadata fields takes the request's
value when supplied and keeps its prior value when omitted. -/
theorem c9_update_frame (req : UpdateReq) (table : List DbPlaylist)
    (hm : req.method = "PUT")
    (h1 : falsyStr req.playlist_id = false)
    (h2 : falsyStr req.spotify_user_id = false) :
    (updateHandler req table).2.2.externalCalls = 0 ∧
    (updateHandler req table).2.1.length = table.length ∧
    (∀ i : Nat, ∀ r : DbPlaylist, table[i]? = some r →
      ∃ r2, (updateHandler req table).2.1[i]? = some r2 ∧
        r2.playlist_id = r.playlist_id ∧
        r2.spotify_user_id = r.spotify_user_id ∧
        r2.is_active = r.is_active ∧
        (¬(r.playlist_id = req.playlist_id.getD "" ∧
            r.spotify_user_id = req.spotify_user_id.getD "") → r2 = r) ∧
        ((r.playlist_id = req.playlist_id.getD "" ∧
            r.spotify_user_id = req.spotify_user_id.getD "") →
          (∀ v, req.playlist_name = some v → r2.playlist_name = v) ∧
          (req.playlist_name = none → r2.playlist_name = r.playlist_name) ∧
          (∀ v, req.playlist_description = some v →
            r2.playlist_description = some v) ∧
          (req.playlist_description = none →
            r2.playlist_description = r.playlist_description) ∧
          (∀ v, req.preferred_venues = some v → r2.preferred_venues = v) ∧
          (req.preferred_venues = none →
            r2.preferred_venues = r.preferred_venues) ∧
          (∀ v, req.songs_per_artist = some v → r2.songs_per_artist = some v) ∧
          (req.songs_per_artist = none →
            r2.songs_per_artist = r.songs_per_artist) ∧
          (∀ v, req.days_ahead = some v → r2.days_ahead = some v) ∧
          (req.days_ahead = none → r2.days_ahead = r.days_ahead))) := by
  obtain ⟨htab, htr⟩ := updateHandler_table_eq req table hm h1 h2
  refine ⟨by rw [htr], by rw [htab, List.length_map], ?_⟩
  intro i r hr
  rw [htab, List.getElem?_map, hr]
  refine ⟨_, rfl, ?_⟩
  dsimp only
  by_cases hb : (r.playlist_id = req.playlist_id.getD "" &&
      r.spotify_user_id = req.spotify_user_id.getD "") = true
  · rw [if_pos hb]
    have hA : r.playlist_id = req.playlist_id.getD "" ∧
        r.spotify_user_id = req.spotify_user_id.getD "" := by
      simpa [Bool.and_eq_true, decide_eq_true_eq] using hb
    refine ⟨rfl, rfl, rfl, fun hng => absurd hA hng, fun _ => ?_⟩
    refine ⟨?_, ?_, ?_, ?_, ?_, ?_, ?_, ?_, ?_, ?_⟩
    · intro v hv; simp [coalesceRow, hv]
    · intro hv; simp [coalesceRow, hv]
    · intro v hv; simp [coalesceRow, hv]
    · intro hv; simp [coalesceRow, hv]
    · intro v hv; simp [coalesceRow, hv]
    · intro hv; simp [coalesceRow, hv]
    · intro v hv; simp [coalesceRow, hv]
    · intro hv; simp [coalesceRow, hv]
    · intro v hv; simp [coalesceRow, hv]
    · intro hv; simp [coalesceRow, hv]
  · rw [if_neg hb]
    refine ⟨rfl, rfl, rfl, fun _ => rfl, fun hg =>
      absurd (by simp [hg.1, hg.2]) hb⟩

/-- Witness for C9 at a concrete request and two-row table. -/
theorem c9_update_frame_witness :
    (updateHandler uReq uTable).2.2.externalCalls = 0 ∧
    (updateHandler uReq uTable).2.1.length = uTable.length :=
  ⟨(c9_update_frame uReq uTable (by decide) (by decide) (by decide)).1,
   (c9_update_frame uReq uTable (by decide) (by decide) (by decide)).2.1⟩

/-- C10: on a create request that omits `days_ahead`, the handler uses
the default window of 21 days both for the stored row (its `days_ahead`
column is 21) and for event selection (the run's outcome — empty-events
response, reported artist count and per-artist lookups — is that of the
resolver evaluated at a 21-day window). -/
theorem c10_default_days_ahead (req : CreateReq) (env : CreateEnv)
    (hd : req.days_ahead = none)
    (hm : req.method = "POST")
    (h1 : falsyStr req.spotify_user_id = false)
    (h2 : falsyStr req.playlist_name = false)
    (h3 : falsyLen req.preferred_venues = false)
    (u : UserRow) (hu : env.user = some u)
    (hok : env.create1.ok = true) :
    (∀ row ∈ (createHandler req env).2.inserted, row.days_ahead = 21) ∧
    (resolveArtists env.events (req.preferred_venues.getD []) 21 = [] →
      (createHandler req env).1 = .emptyEvents (some env.create1.id)) ∧
    (resolveArtists env.events (req.preferred_venues.getD []) 21 ≠ [] →
      (createHandler req env).1.artistsFoundField =
        some (resolveArtists env.events (req.preferred_venues.getD []) 21).length ∧
      (createHandler req env).2.topCalls =
        (resolveArtists env.events (req.preferred_venues.getD []) 21).map Prod.fst) := by
  have hgd : req.days_ahead.getD 21 = 21 := by rw [hd]; rfl
  refine ⟨?_, ?_, ?_⟩
  · intro row hrow
    have h := createHandler_inserted req env row hrow
    rw [h.2.2.2.2.2, hgd]
  · intro hempty
    rw [createHandler_ok_empty req env hm h1 h2 h3 u hu hok (by rw [hgd]; exact hempty)]
  · intro hne
    rw [createHandler_ok_nonempty req env hm h1 h2 h3 u hu hok (by rw [hgd]; exact hne)]
    constructor
    · simp [CreateResponse.artistsFoundField, hgd]
    · simp [hgd]

/-- Witness for C10 at a request omitting `days_ahead`: the stored row
carries 21 and the run's counts match the 21-day resolver. -/
theorem c10_default_days_ahead_witness :
    (∀ row ∈ (createHandler reqNoDays envGood).2.inserted, row.days_ahead = 21) ∧
    ((createHandler reqNoDays envGood).1.artistsFoundField =
      some (resolveArtists envGood.events (reqNoDays.preferred_venues.getD []) 21).length ∧
     (createHandler reqNoDays envGood).2.topCalls =
      (resolveArtists envGood.events (reqNoDays.preferred_venues.getD []) 21).map Prod.fst) :=
  ⟨(c10_default_days_ahead reqNoDays envGood (by decide) (by decide) (by decide)
      (by decide) (by decide) uA (by decide) (by decide)).1,
   (c10_default_days_ahead reqNoDays envGood (by decide) (by decide) (by decide)
      (by decide) (by decide) uA (by decide) (by decide)).2.2 (by decide)⟩

end LiveAndLocal
